import Mathlib

/-!
Verification of the preference-bridging subsystem (`src/lib.rs`,
`src/preferences.rs`): the data model of system preferences, the pure
conversion from raw platform values, and the channel-based handoff between
the background relay task and the per-tick poll system.

Floating point is not modelled bit-exactly: the raw platform color carries
`f64` channels and the core color carries `f32` channels. Channels are
carried as their bit-pattern spaces (`F64` with 2^64 patterns, `F32` with
2^32 patterns), and since IEEE-754 rounding itself is not modelled, the
`as f32` per-channel narrowing is passed to the conversion as an explicit
function parameter `narrow : F64 → F32`. The program performs no
arithmetic on channel values other than this narrowing, so every other
aspect of the code is modelled exactly; the only fact the development ever
uses about the narrowing is the size of the two pattern spaces, which
forces every possible narrowing to identify distinct channel values.
-/

namespace BevyMundy

/-- Carrier for raw `f64` color channel values: the 2^64 bit patterns of an
`f64`. The program only passes these values through the narrowing
function, so they are carried opaquely. -/
abbrev F64 := Fin (2 ^ 64)

/-- Carrier for `f32` color channel values in the core color type: the
2^32 bit patterns of an `f32`. -/
abbrev F32 := Fin (2 ^ 32)

/-- Carrier for `std::time::Duration` (total nanoseconds); the program never
computes on durations, it only passes them through. -/
abbrev Duration := Nat

namespace mundy

/-- Raw platform color scheme (`mundy::ColorScheme`), as matched by the
`From` impl in `src/preferences.rs`. -/
inductive ColorScheme
  | NoPreference
  | Light
  | Dark
deriving DecidableEq, Repr

/-- Raw platform contrast (`mundy::Contrast`). -/
inductive Contrast
  | NoPreference
  | More
  | Less
  | Custom
deriving DecidableEq, Repr

/-- Raw platform reduced-motion preference (`mundy::ReducedMotion`). -/
inductive ReducedMotion
  | NoPreference
  | Reduce
deriving DecidableEq, Repr

/-- Raw platform reduced-transparency preference (`mundy::ReducedTransparency`). -/
inductive ReducedTransparency
  | NoPreference
  | Reduce
deriving DecidableEq, Repr

/-- Raw platform sRGBA color with `f64` channels: the value whose
`to_f64_array` the conversion reads, in `[red, green, blue, alpha]` order. -/
structure Srgba64 where
  red : F64
  green : F64
  blue : F64
  alpha : F64
deriving DecidableEq, Repr

/-- Raw platform accent color (`mundy::AccentColor(pub Option<Srgba>)`):
absent when unset or unsupported. -/
structure AccentColor where
  val : Option Srgba64
deriving DecidableEq, Repr

/-- Raw platform double-click interval
(`mundy::DoubleClickInterval(pub Option<Duration>)`). -/
structure DoubleClickInterval where
  val : Option Duration
deriving DecidableEq, Repr

/-- Raw platform snapshot (`mundy::Preferences`): the item type of the
platform stream, read field-by-field by the `From` impl. -/
structure Preferences where
  color_scheme : ColorScheme
  contrast : Contrast
  reduced_motion : ReducedMotion
  reduced_transparency : ReducedTransparency
  accent_color : AccentColor
  double_click_interval : DoubleClickInterval
deriving DecidableEq, Repr

end mundy

/-- Core color scheme (`ColorScheme` in `src/preferences.rs`). -/
inductive ColorScheme
  | NoPreference
  | Light
  | Dark
deriving DecidableEq, Repr

/-- Core contrast (`Contrast` in `src/preferences.rs`). -/
inductive Contrast
  | NoPreference
  | More
  | Less
  | Custom
deriving DecidableEq, Repr

/-- Core reduced-motion preference (`ReducedMotion` in `src/preferences.rs`). -/
inductive ReducedMotion
  | NoPreference
  | Reduce
deriving DecidableEq, Repr

/-- Core reduced-transparency preference (`ReducedTransparency` in
`src/preferences.rs`). -/
inductive ReducedTransparency
  | NoPreference
  | Reduce
deriving DecidableEq, Repr

/-- Core sRGBA color with `f32` channels (`bevy_color::Srgba`), as built by
`Srgba::from_f32_array` in `[red, green, blue, alpha]` order. -/
structure Srgba32 where
  red : F32
  green : F32
  blue : F32
  alpha : F32
deriving DecidableEq, Repr

/-- The `bevy_color::Color` value as produced by the accent-color conversion: the
`.into()` from `Srgba` yields the `Color::Srgba` variant, the only one this
subsystem ever constructs or inspects. -/
inductive Color
  | srgba (s : Srgba32)
deriving DecidableEq, Repr

/-- Core accent color (`AccentColor(pub Option<Color>)` in
`src/preferences.rs`). -/
structure AccentColor where
  val : Option Color
deriving DecidableEq, Repr

/-- Core double-click interval
(`DoubleClickInterval(pub Option<Duration>)` in `src/preferences.rs`). -/
structure DoubleClickInterval where
  val : Option Duration
deriving DecidableEq, Repr

/-- The core `Preferences` resource (`src/preferences.rs`, lines 8-32),
modelled with every feature compiled in (the `Interest::All` build); its
derived `PartialEq` is structural equality on all fields. -/
structure Preferences where
  color_scheme : ColorScheme
  contrast : Contrast
  reduced_motion : ReducedMotion
  reduced_transparency : ReducedTransparency
  accent_color : AccentColor
  double_click_interval : DoubleClickInterval
deriving DecidableEq, Repr

/-- Derived `Default` for `ColorScheme`: the `#[default]` variant is
`NoPreference`. -/
def ColorScheme.default : ColorScheme := ColorScheme.NoPreference

/-- Derived `Default` for `Contrast`: the `#[default]` variant is
`NoPreference`. -/
def Contrast.default : Contrast := Contrast.NoPreference

/-- Derived `Default` for `ReducedMotion`. -/
def ReducedMotion.default : ReducedMotion := ReducedMotion.NoPreference

/-- Derived `Default` for `ReducedTransparency`. -/
def ReducedTransparency.default : ReducedTransparency := ReducedTransparency.NoPreference

/-- Derived `Default` for `AccentColor`: `Option`'s default is `None`. -/
def AccentColor.default : AccentColor := ⟨none⟩

/-- Derived `Default` for `DoubleClickInterval`: `Option`'s default is
`None`. -/
def DoubleClickInterval.default : DoubleClickInterval := ⟨none⟩

/-- Derived `Default` for `Preferences`: every field at its own default.
This is the value `init_resource::<Preferences>` installs at startup. -/
def Preferences.default : Preferences :=
  { color_scheme := ColorScheme.default
    contrast := Contrast.default
    reduced_motion := ReducedMotion.default
    reduced_transparency := ReducedTransparency.default
    accent_color := AccentColor.default
    double_click_interval := DoubleClickInterval.default }

/-- Impl `From<mundy::ColorScheme> for ColorScheme` (`src/preferences.rs`,
lines 72-80). -/
def ColorScheme.from_mundy : mundy.ColorScheme → ColorScheme
  | mundy.ColorScheme.NoPreference => ColorScheme.NoPreference
  | mundy.ColorScheme.Light => ColorScheme.Light
  | mundy.ColorScheme.Dark => ColorScheme.Dark

/-- Impl `From<mundy::Contrast> for Contrast` (`src/preferences.rs`,
lines 110-119). -/
def Contrast.from_mundy : mundy.Contrast → Contrast
  | mundy.Contrast.NoPreference => Contrast.NoPreference
  | mundy.Contrast.More => Contrast.More
  | mundy.Contrast.Less => Contrast.Less
  | mundy.Contrast.Custom => Contrast.Custom

/-- Impl `From<mundy::ReducedMotion> for ReducedMotion` (`src/preferences.rs`,
lines 147-154). -/
def ReducedMotion.from_mundy : mundy.ReducedMotion → ReducedMotion
  | mundy.ReducedMotion.NoPreference => ReducedMotion.NoPreference
  | mundy.ReducedMotion.Reduce => ReducedMotion.Reduce

/-- Impl `From<mundy::ReducedTransparency> for ReducedTransparency`
(`src/preferences.rs`, lines 179-186). -/
def ReducedTransparency.from_mundy : mundy.ReducedTransparency → ReducedTransparency
  | mundy.ReducedTransparency.NoPreference => ReducedTransparency.NoPreference
  | mundy.ReducedTransparency.Reduce => ReducedTransparency.Reduce

/-- Impl `From<mundy::AccentColor> for AccentColor` (`src/preferences.rs`,
lines 201-210): `value.0.map(|c| Srgba::from_f32_array(c.to_f64_array().map(|c| c as f32)).into())`.
The per-channel `as f32` narrowing is the parameter `narrow`. -/
def AccentColor.from_mundy (narrow : F64 → F32) (value : mundy.AccentColor) : AccentColor :=
  ⟨value.val.map fun c =>
    Color.srgba ⟨narrow c.red, narrow c.green, narrow c.blue, narrow c.alpha⟩⟩

/-- Impl `From<mundy::DoubleClickInterval> for DoubleClickInterval`
(`src/preferences.rs`, lines 228-232): `Self(value.0)`. -/
def DoubleClickInterval.from_mundy (value : mundy.DoubleClickInterval) : DoubleClickInterval :=
  ⟨value.val⟩

/-- Impl `From<mundy::Preferences> for Preferences` (`src/preferences.rs`,
lines 34-45): each field converted independently by its own `From`. -/
def Preferences.from_mundy (narrow : F64 → F32) (value : mundy.Preferences) : Preferences :=
  { color_scheme := ColorScheme.from_mundy value.color_scheme
    contrast := Contrast.from_mundy value.contrast
    reduced_motion := ReducedMotion.from_mundy value.reduced_motion
    reduced_transparency := ReducedTransparency.from_mundy value.reduced_transparency
    accent_color := AccentColor.from_mundy narrow value.accent_color
    double_click_interval := DoubleClickInterval.from_mundy value.double_click_interval }

/-- State of the `crossbeam_channel::unbounded` handoff channel created in
`subscribe_to_preferencs`: the FIFO queue of sent-but-unreceived items plus
which endpoint, if any, has been dropped. -/
structure Channel where
  queue : List mundy.Preferences
  senderDropped : Bool
  receiverDropped : Bool
deriving DecidableEq, Repr

/-- The error cases of `crossbeam_channel::TryRecvError`. -/
inductive TryRecvError
  | Empty
  | Disconnected
deriving DecidableEq, Repr

/-- Operation `crossbeam_channel::Receiver::try_recv`: pops the oldest queued item;
on an empty queue it reports `Empty` while the sender is alive and
`Disconnected` once the sender has been dropped (buffered items are still
delivered after the drop). Never blocks. -/
def Channel.try_recv : Channel → Except TryRecvError (mundy.Preferences × Channel)
  | ⟨x :: rest, s, r⟩ => Except.ok (x, ⟨rest, s, r⟩)
  | ⟨[], s, _⟩ =>
    if s then Except.error TryRecvError.Disconnected
    else Except.error TryRecvError.Empty

/-- Operation `crossbeam_channel::Sender::send` on an unbounded channel: appends to
the queue and succeeds unless the receiver has been dropped, in which case
the channel is unchanged and the send reports failure. Never blocks. -/
def Channel.send (ch : Channel) (x : mundy.Preferences) : Channel × Bool :=
  if ch.receiverDropped then (ch, false)
  else ({ ch with queue := ch.queue ++ [x] }, true)

/-- Task body `forward_stream_to_receiver` (`src/lib.rs`, lines 38-45), run on the
finite list of items the platform stream yields before it ends:
`while let Some(preferences) = stream.next().await { _ = sender.send(preferences); }`.
The send's result is discarded (`_ =`), matching the source. The returned
list records each send attempt's success flag, in order, so that theorems
can speak about which sends the task performed. -/
def forward_stream_to_receiver : List mundy.Preferences → Channel → Channel × List Bool
  | [], ch => (ch, [])
  | x :: rest, ch =>
    let sent := ch.send x
    let next := forward_stream_to_receiver rest sent.1
    (next.1, sent.2 :: next.2)

/-- System `poll_system_preferences` (`src/lib.rs`, lines 50-61): one non-blocking
`try_recv`; `Empty` returns `Ok(())` leaving the resource untouched, any
other error is returned, and a received item is converted and written over
the `Preferences` resource. Returns the system's `Result` together with the
channel and resource states after the call. -/
def poll_system_preferences (narrow : F64 → F32) (receiver : Channel)
    (preferences_res : Preferences) : Except TryRecvError Unit × Channel × Preferences :=
  match receiver.try_recv with
  | Except.error TryRecvError.Empty => (Except.ok (), receiver, preferences_res)
  | Except.error e => (Except.error e, receiver, preferences_res)
  | Except.ok (preferences, receiver) =>
    (Except.ok (), receiver, Preferences.from_mundy narrow preferences)

/-- The six preference categories a build can select. -/
inductive Category
  | color_scheme
  | contrast
  | reduced_motion
  | reduced_transparency
  | accent_color
  | double_click_interval
deriving DecidableEq, Repr

/-- A build-time feature configuration: which categories are compiled in. -/
structure Features where
  color_scheme : Bool
  contrast : Bool
  reduced_motion : Bool
  reduced_transparency : Bool
  accent_color : Bool
  double_click_interval : Bool
deriving DecidableEq, Repr

/-- Whether a category's feature is compiled in under configuration `f`. -/
def Features.has (f : Features) : Category → Bool
  | Category.color_scheme => f.color_scheme
  | Category.contrast => f.contrast
  | Category.reduced_motion => f.reduced_motion
  | Category.reduced_transparency => f.reduced_transparency
  | Category.accent_color => f.accent_color
  | Category.double_click_interval => f.double_click_interval

/-- All six categories, each once. -/
def Category.all : List Category :=
  [Category.color_scheme, Category.contrast, Category.reduced_motion,
   Category.reduced_transparency, Category.accent_color, Category.double_click_interval]

/-- Modelled from the spec: `mundy::Interest::All`, the interest set of the
external mundy crate (not part of this repository). Its flags are
feature-gated per category and `All` is their union, i.e. "*all* interests
corresponding to the compiled-in feature set". -/
def Interest.All (f : Features) : List Category :=
  Category.all.filter f.has

/-- The interest set `subscribe_to_preferencs` (`src/lib.rs`, lines 29-36)
passes to the platform source: `mundy::Preferences::stream(Interest::All)`
subscribes with exactly `Interest::All`. -/
def subscribe_to_preferencs (f : Features) : List Category :=
  Interest.All f

/-- A concrete raw snapshot expressing no preferences, used as a test input. -/
def rawNoPref : mundy.Preferences :=
  { color_scheme := mundy.ColorScheme.NoPreference
    contrast := mundy.Contrast.NoPreference
    reduced_motion := mundy.ReducedMotion.NoPreference
    reduced_transparency := mundy.ReducedTransparency.NoPreference
    accent_color := ⟨none⟩
    double_click_interval := ⟨none⟩ }

/-- A concrete raw snapshot with a light color scheme, used as a test input. -/
def rawLight : mundy.Preferences :=
  { rawNoPref with color_scheme := mundy.ColorScheme.Light }

/-- A concrete raw snapshot with a dark color scheme, used as a test input. -/
def rawDark : mundy.Preferences :=
  { rawNoPref with color_scheme := mundy.ColorScheme.Dark }

/-- C1 fails on the code: `poll_system_preferences` performs a single
`try_recv`, not a drain loop. With [A, B, C] queued (here
[rawNoPref, rawLight, rawDark]) the resource after the poll step is the
conversion of A, not of C, and B and C are not discarded: they remain
queued. -/
theorem c1_counterexample :
    (poll_system_preferences (fun _ => 0) ⟨[rawNoPref, rawLight, rawDark], false, false⟩
        Preferences.default).2.2 ≠ Preferences.from_mundy (fun _ => 0) rawDark
    ∧ (poll_system_preferences (fun _ => 0) ⟨[rawNoPref, rawLight, rawDark], false, false⟩
        Preferences.default).2.2 = Preferences.from_mundy (fun _ => 0) rawNoPref
    ∧ (poll_system_preferences (fun _ => 0) ⟨[rawNoPref, rawLight, rawDark], false, false⟩
        Preferences.default).2.1.queue = [rawLight, rawDark] := by
  refine ⟨?_, rfl, rfl⟩
  decide

/-- C1 (amended): the per-tick poll step performs exactly one non-blocking
receive; when the channel holds the queued items [A, B, C] in order, the
poll step returns success, publishes the conversion of A (the oldest item),
and leaves B and C queued for subsequent ticks. -/
theorem c1_single_receive_publishes_oldest (narrow : F64 → F32)
    (A B C : mundy.Preferences) (rest : List mundy.Preferences) (s r : Bool)
    (p : Preferences) :
    poll_system_preferences narrow ⟨A :: B :: C :: rest, s, r⟩ p
      = (Except.ok (), ⟨B :: C :: rest, s, r⟩, Preferences.from_mundy narrow A) :=
  rfl

/-- C2 fails on the code: the relay loop discards the send result
(`_ = sender.send(preferences)`) and keeps consuming the stream. With the
receiver already dropped and a two-item stream, both sends are attempted
and fail: the task performs a further send after its first failed one, and
exits only because the stream ends. -/
theorem c2_counterexample :
    (forward_stream_to_receiver [rawLight, rawDark] ⟨[], false, true⟩).2
        = [false, false]
    ∧ (forward_stream_to_receiver [rawLight, rawDark] ⟨[], false, true⟩).2
        ≠ [false] := by
  refine ⟨rfl, ?_⟩
  decide

/-- C2 (amended): the relay task ignores send failures; it attempts exactly
one send per stream item, regardless of how many earlier sends failed, and
exits only when the stream itself ends. -/
theorem c2_relay_attempts_send_per_item (stream : List mundy.Preferences)
    (ch : Channel) :
    (forward_stream_to_receiver stream ch).2.length = stream.length := by
  induction stream generalizing ch with
  | nil => rfl
  | cons x rest ih => simp [forward_stream_to_receiver, ih]

/-- C3: the startup subscription passes `Interest::All`, whose interests
are exactly the compiled-in categories: a category is in the subscribed
interest set if and only if its feature is compiled in (so unselected
categories are never subscribed to). -/
theorem c3_subscribed_iff_compiled (f : Features) (c : Category) :
    c ∈ subscribe_to_preferencs f ↔ f.has c = true := by
  have hc : c ∈ Category.all := by cases c <;> simp [Category.all]
  simp [subscribe_to_preferencs, Interest.All, List.mem_filter, hc]

/-- C4: once the sender has been dropped and the queue has been drained,
the poll step returns `Err(Disconnected)`, which is distinguishable from
the `Ok(())` it returns when the channel is merely empty; within the poll
call the condition is reported exactly once, as its single result value. -/
theorem c4_closed_channel_surfaced (narrow : F64 → F32) (r : Bool)
    (p : Preferences) :
    (poll_system_preferences narrow ⟨[], true, r⟩ p).1
        = Except.error TryRecvError.Disconnected
    ∧ (poll_system_preferences narrow ⟨[], false, r⟩ p).1 = Except.ok ()
    ∧ (Except.error TryRecvError.Disconnected : Except TryRecvError Unit)
        ≠ Except.ok () := by
  refine ⟨rfl, rfl, ?_⟩
  intro h
  exact Except.noConfusion h

/-- C5: if the channel reports empty (no queued items, sender alive), the
poll step returns success and leaves both the channel and the shared
`Preferences` resource exactly as they were. -/
theorem c5_empty_channel_no_update (narrow : F64 → F32) (r : Bool)
    (p : Preferences) :
    poll_system_preferences narrow ⟨[], false, r⟩ p
      = (Except.ok (), ⟨[], false, r⟩, p) :=
  rfl

/-- C6: the `Default` construction of `Preferences` (used by
`init_resource` at startup) is total and yields every field at its
documented default: `NoPreference` for each enum field, `None` for the
accent color and the double-click interval. -/
theorem c6_default_totality :
    Preferences.default.color_scheme = ColorScheme.NoPreference
    ∧ Preferences.default.contrast = Contrast.NoPreference
    ∧ Preferences.default.reduced_motion = ReducedMotion.NoPreference
    ∧ Preferences.default.reduced_transparency = ReducedTransparency.NoPreference
    ∧ Preferences.default.accent_color = AccentColor.mk none
    ∧ Preferences.default.double_click_interval = DoubleClickInterval.mk none := by
  decide

/-- Helper: no per-channel narrowing from the 2^64-pattern `f64` space to
the 2^32-pattern `f32` space makes the accent-color conversion injective.
Any such narrowing identifies two distinct channel values (pigeonhole on
the pattern-space sizes), and the conversion then identifies two distinct
raw accent colors whose channels are those two values. -/
theorem accent_color_narrowing_not_injective (narrow : F64 → F32) :
    ¬ Function.Injective (AccentColor.from_mundy narrow) := by
  intro hinj
  have hn : Function.Injective narrow := by
    intro a b h
    have h2 := hinj (show AccentColor.from_mundy narrow ⟨some ⟨a, a, a, a⟩⟩
        = AccentColor.from_mundy narrow ⟨some ⟨b, b, b, b⟩⟩ by
      simp [AccentColor.from_mundy, h])
    simpa [mundy.AccentColor.mk.injEq, mundy.Srgba64.mk.injEq] using h2
  have hcard := Fintype.card_le_of_injective narrow hn
  simp only [Fintype.card_fin] at hcard
  norm_num at hcard

/-- C7 fails on the code for the accent-color field: the conversion
narrows each channel from the `f64` pattern space (2^64 values) to the
`f32` pattern space (2^32 values), so whatever function the `c as f32`
cast denotes, the accent-color conversion cannot be injective. -/
theorem c7_counterexample :
    ¬ ∃ narrow : F64 → F32, Function.Injective (AccentColor.from_mundy narrow) := by
  rintro ⟨narrow, hinj⟩
  exact accent_color_narrowing_not_injective narrow hinj

/-- C7 (amended): the conversion maps each raw enum variant to the
identically-named core variant; it is injective on the color-scheme,
contrast, reduced-motion, reduced-transparency, and double-click-interval
fields; it maps an absent accent color and an absent double-click interval
to `None`. The accent-color conversion is not injective: its per-channel
`f64`-to-`f32` narrowing maps a larger pattern space onto a smaller one
and therefore identifies distinct raw colors. -/
theorem c7_field_mapping (narrow : F64 → F32) :
    (ColorScheme.from_mundy mundy.ColorScheme.NoPreference = ColorScheme.NoPreference
      ∧ ColorScheme.from_mundy mundy.ColorScheme.Light = ColorScheme.Light
      ∧ ColorScheme.from_mundy mundy.ColorScheme.Dark = ColorScheme.Dark)
    ∧ (Contrast.from_mundy mundy.Contrast.NoPreference = Contrast.NoPreference
      ∧ Contrast.from_mundy mundy.Contrast.More = Contrast.More
      ∧ Contrast.from_mundy mundy.Contrast.Less = Contrast.Less
      ∧ Contrast.from_mundy mundy.Contrast.Custom = Contrast.Custom)
    ∧ (ReducedMotion.from_mundy mundy.ReducedMotion.NoPreference = ReducedMotion.NoPreference
      ∧ ReducedMotion.from_mundy mundy.ReducedMotion.Reduce = ReducedMotion.Reduce)
    ∧ (ReducedTransparency.from_mundy mundy.ReducedTransparency.NoPreference
          = ReducedTransparency.NoPreference
      ∧ ReducedTransparency.from_mundy mundy.ReducedTransparency.Reduce
          = ReducedTransparency.Reduce)
    ∧ Function.Injective ColorScheme.from_mundy
    ∧ Function.Injective Contrast.from_mundy
    ∧ Function.Injective ReducedMotion.from_mundy
    ∧ Function.Injective ReducedTransparency.from_mundy
    ∧ Function.Injective DoubleClickInterval.from_mundy
    ∧ ¬ Function.Injective (AccentColor.from_mundy narrow)
    ∧ AccentColor.from_mundy narrow ⟨none⟩ = ⟨none⟩
    ∧ DoubleClickInterval.from_mundy ⟨none⟩ = ⟨none⟩ := by
  refine ⟨⟨rfl, rfl, rfl⟩, ⟨rfl, rfl, rfl, rfl⟩, ⟨rfl, rfl⟩, ⟨rfl, rfl⟩,
    ?_, ?_, ?_, ?_, ?_, accent_color_narrowing_not_injective narrow, rfl, rfl⟩
  · intro a b h
    cases a <;> cases b <;> simp_all [ColorScheme.from_mundy]
  · intro a b h
    cases a <;> cases b <;> simp_all [Contrast.from_mundy]
  · intro a b h
    cases a <;> cases b <;> simp_all [ReducedMotion.from_mundy]
  · intro a b h
    cases a <;> cases b <;> simp_all [ReducedTransparency.from_mundy]
  · intro a b h
    cases a with | mk av =>
    cases b with | mk bv =>
    simp only [DoubleClickInterval.from_mundy, DoubleClickInterval.mk.injEq] at h
    simp only [mundy.DoubleClickInterval.mk.injEq]
    exact h

/-- C8: the raw-snapshot conversion is a pure function of its argument:
converting the same raw snapshot any number of times yields structurally
identical results, and the result of converting a snapshot is independent
of which other conversions come before or after it. -/
theorem c8_conversion_deterministic (narrow : F64 → F32)
    (v : mundy.Preferences) (l1 l2 : List mundy.Preferences) :
    Preferences.from_mundy narrow v = Preferences.from_mundy narrow v
    ∧ List.map (Preferences.from_mundy narrow) (l1 ++ v :: l2)
        = List.map (Preferences.from_mundy narrow) l1
          ++ Preferences.from_mundy narrow v
            :: List.map (Preferences.from_mundy narrow) l2 :=
  ⟨rfl, by simp⟩

/-- C9: order preservation across ticks: starting from an empty open
channel, if A is sent and polled, then B is sent and polled, the shared
`Preferences` resource equals the conversion of A after the first tick and
the conversion of B after the second tick. -/
theorem c9_order_across_ticks (narrow : F64 → F32) (A B : mundy.Preferences)
    (p0 : Preferences) :
    ((poll_system_preferences narrow
        ((Channel.mk [] false false).send A).1 p0).2.2
      = Preferences.from_mundy narrow A)
    ∧ ((poll_system_preferences narrow
          (((poll_system_preferences narrow ((Channel.mk [] false false).send A).1
              p0).2.1).send B).1
          (poll_system_preferences narrow ((Channel.mk [] false false).send A).1
            p0).2.2).2.2
        = Preferences.from_mundy narrow B) :=
  ⟨rfl, rfl⟩

/-- C10: atomicity on error: when the receive reports disconnection, the
poll step returns the error with the shared `Preferences` resource (and the
channel) left unchanged — no write happens on the error path. -/
theorem c10_error_leaves_resource_unchanged (narrow : F64 → F32) (r : Bool)
    (p : Preferences) :
    poll_system_preferences narrow ⟨[], true, r⟩ p
      = (Except.error TryRecvError.Disconnected, ⟨[], true, r⟩, p) :=
  rfl

end BevyMundy
